import Mathlib

/-!
Shallow embedding of `frontend/src/setupTests.js` from the foodgram
repository, together with proofs of the behavioural properties of its
module body.

The source file is a test-environment bootstrapper.  Its line 5 is the
statement `import '@testing-library/jest-dom';`, and the rest of the
module body is:

```js
  if (typeof global.clearImmediate === 'undefined') {
    global.clearImmediate = function(id) {
      clearTimeout(id);
    };
  }

  if (typeof global.setImmediate === 'undefined') {
    global.setImmediate = function(fn) {
      return setTimeout(fn, 0);
    };
  }
```

We model the observable process state: the two global bindings, the host
timer queue (`setTimeout` / `clearTimeout`), the log of callback
invocations performed by the timer loop, the jest matcher registry, and
the availability of the `@testing-library/jest-dom` package.  JavaScript
function objects have reference identity, so every evaluation of a
function expression allocates a fresh object; we model this with an
allocation counter `nextFnId` stamped into each installed shim, which
makes "referentially identical" expressible as plain equality of tagged
values.  Callbacks are opaque and identified by a `Nat`; invoking a
callback is recorded in an execution log as the pair of the callback id
and the argument list it was invoked with.
-/

namespace SetupTests

/-- A timer registered with the host's `setTimeout`: its handle, the
requested delay in milliseconds, the callback to invoke, and the extra
arguments `setTimeout` was asked to pass to the callback when it fires. -/
structure Timer where
  id : Nat
  delay : Nat
  cb : Nat
  args : List Nat
  deriving Repr, DecidableEq

/-- A JavaScript function value stored in a global binding.  `fnNative i`
is a pre-existing host implementation; `clearImmediateShim i` and
`setImmediateShim i` are the two function expressions of setupTests.js.
The tag `i` is the object identity of the function value, so equality of
`FnVal`s is reference identity. -/
inductive FnVal where
  | fnNative (objId : Nat)
  | clearImmediateShim (objId : Nat)
  | setImmediateShim (objId : Nat)
  deriving Repr, DecidableEq

/-- The observable state of a test process. -/
structure PState where
  /-- The global `setImmediate` binding, `none` when undefined. -/
  setImmediateG : Option FnVal
  /-- The global `clearImmediate` binding, `none` when undefined. -/
  clearImmediateG : Option FnVal
  /-- Pending host timers, in registration order. -/
  timers : List Timer
  /-- Log of callback invocations already performed by the timer loop:
  each entry is the callback id and the argument list it received. -/
  executed : List (Nat × List Nat)
  /-- Allocator for fresh timer handles. -/
  nextTimerId : Nat
  /-- Allocator for fresh function-object identities. -/
  nextFnId : Nat
  /-- Whether the jest-dom matchers have been registered on the shared
  assertion registry. -/
  matchersRegistered : Bool
  /-- Whether the `@testing-library/jest-dom` package is resolvable. -/
  jestDomPresent : Bool
  /-- Every other global binding of the process, untouched by the
  bootstrapper. -/
  otherGlobals : List (String × Nat)
  deriving Repr, DecidableEq

/-- The host's `setTimeout(cb, delay, ...args)`: allocates a fresh handle,
appends the timer to the queue, and returns the handle. -/
def setTimeout (cb : Nat) (args : List Nat) (delay : Nat) (st : PState) :
    Nat × PState :=
  (st.nextTimerId,
   { st with
       timers := st.timers ++ [⟨st.nextTimerId, delay, cb, args⟩]
       nextTimerId := st.nextTimerId + 1 })

/-- The host's `clearTimeout(h)`: removes the pending timer with handle
`h`, if any; unknown handles are ignored. -/
def clearTimeout (h : Nat) (st : PState) : PState :=
  { st with timers := st.timers.filter (fun t => t.id ≠ h) }

/-- The host timer loop firing every pending timer in registration order:
each timer's callback is invoked with the arguments bound at scheduling
time, and the queue empties. -/
def fireAllTimers (st : PState) : PState :=
  { st with
      timers := []
      executed := st.executed ++ st.timers.map (fun t => (t.cb, t.args)) }

/-- Calling the global `setImmediate` with callback `fn` and extra
arguments `extra`.  When the binding is the shim of setupTests.js lines
15-17, the body is `return setTimeout(fn, 0)`: the shim declares the
single parameter `fn`, so `extra` is discarded and no arguments are bound
for the callback; the `setTimeout` handle is returned.  A `fnNative`
binding has host-defined behaviour outside this model, and calling an
undefined binding throws; both yield `none`. -/
def callGlobalSetImmediate (fn : Nat) (extra : List Nat) (st : PState) :
    Option (Nat × PState) :=
  match st.setImmediateG with
  | some (FnVal.setImmediateShim _) => some (setTimeout fn [] 0 st)
  | _ => none

/-- Calling the global `clearImmediate` with handle `h`.  When the binding
is the shim of setupTests.js lines 9-11, the body is `clearTimeout(id)`.
A `fnNative` binding has host-defined behaviour outside this model, and
calling an undefined binding throws; both yield `none`. -/
def callGlobalClearImmediate (h : Nat) (st : PState) : Option PState :=
  match st.clearImmediateG with
  | some (FnVal.clearImmediateShim _) => some (clearTimeout h st)
  | _ => none

/-- The side effect of `import '@testing-library/jest-dom'`: the imported
module registers its matchers on the shared jest `expect` registry.
Re-registration overwrites with the same matchers, so the effect is
idempotent. -/
def registerJestDomMatchers (st : PState) : PState :=
  { st with matchersRegistered := true }

/-- Evaluating `global.clearImmediate = function(id) { clearTimeout(id); }`:
a fresh function object is allocated and stored in the global binding. -/
def installClearShim (st : PState) : PState :=
  { st with
      clearImmediateG := some (FnVal.clearImmediateShim st.nextFnId)
      nextFnId := st.nextFnId + 1 }

/-- Evaluating `global.setImmediate = function(fn) { return setTimeout(fn, 0); }`:
a fresh function object is allocated and stored in the global binding. -/
def installSetShim (st : PState) : PState :=
  { st with
      setImmediateG := some (FnVal.setImmediateShim st.nextFnId)
      nextFnId := st.nextFnId + 1 }

/-- The operations the module body performs, in order: first the
jest-dom import, then each presence check with whether it installed its
shim. -/
inductive BootOp where
  | importJestDom
  | ensureClearImmediate (installed : Bool)
  | ensureSetImmediate (installed : Bool)
  deriving Repr, DecidableEq

/-- The pieces of shared state the module body may write. -/
inductive GlobalTarget where
  | matcherRegistry
  | clearImmediateB
  | setImmediateB
  deriving Repr, DecidableEq

/-- The loader failing: the only way setupTests.js can fail is the
jest-dom import throwing at module resolution. -/
inductive LoadError where
  | importFailed
  deriving Repr, DecidableEq

/-- Outcome of a successful load: the final process state, the trace of
operations performed, and the log of shared-state writes. -/
structure BootResult where
  state : PState
  ops : List BootOp
  writes : List GlobalTarget
  deriving Repr, DecidableEq

/-- The module body of setupTests.js once the jest-dom import has
resolved, statement by statement: the import's registry side effect,
then lines 8-12 (install the `clearImmediate` shim iff the global is
undefined), then lines 14-18 (install the `setImmediate` shim iff the
global is undefined).  The trace and write log record what happened. -/
def bootStep (st : PState) : BootResult :=
  let st1 := registerJestDomMatchers st
  let clearUndef : Bool := st1.clearImmediateG.isNone
  let st2 := if clearUndef then installClearShim st1 else st1
  let setUndef : Bool := st2.setImmediateG.isNone
  let st3 := if setUndef then installSetShim st2 else st2
  { state := st3
    ops := [BootOp.importJestDom, BootOp.ensureClearImmediate clearUndef,
            BootOp.ensureSetImmediate setUndef]
    writes := [GlobalTarget.matcherRegistry]
      ++ (if clearUndef then [GlobalTarget.clearImmediateB] else [])
      ++ (if setUndef then [GlobalTarget.setImmediateB] else []) }

/-- Loading setupTests.js.  Line 5 imports `@testing-library/jest-dom`:
if the package cannot be resolved the import throws and module
evaluation aborts before anything else runs; otherwise the rest of the
module body executes unconditionally. -/
def loadBootstrapper (st : PState) : Except LoadError BootResult :=
  if st.jestDomPresent then Except.ok (bootStep st)
  else Except.error LoadError.importFailed

/-- A process state whose pending timer handles were all allocated by
`nextTimerId`: every pending handle is below the allocator.  `setTimeout`
and `clearTimeout` preserve this, so it holds of every reachable state. -/
def HandlesFresh (st : PState) : Prop :=
  ∀ t ∈ st.timers, t.id < st.nextTimerId

instance (st : PState) : Decidable (HandlesFresh st) := by
  unfold HandlesFresh; infer_instance

/-- A bare state for witnesses: no globals defined, empty timer queue,
jest-dom installed. -/
def st0 : PState :=
  { setImmediateG := none
    clearImmediateG := none
    timers := []
    executed := []
    nextTimerId := 0
    nextFnId := 0
    matchersRegistered := false
    jestDomPresent := true
    otherGlobals := [] }

/-- The result of loading the bootstrapper in `st0`, spelled out. -/
def r0 : BootResult :=
  { state :=
      { setImmediateG := some (FnVal.setImmediateShim 1)
        clearImmediateG := some (FnVal.clearImmediateShim 0)
        timers := []
        executed := []
        nextTimerId := 0
        nextFnId := 2
        matchersRegistered := true
        jestDomPresent := true
        otherGlobals := [] }
    ops := [BootOp.importJestDom, BootOp.ensureClearImmediate true,
            BootOp.ensureSetImmediate true]
    writes := [GlobalTarget.matcherRegistry, GlobalTarget.clearImmediateB,
               GlobalTarget.setImmediateB] }

/-- A state for witnesses in which both globals are already provided by
the host: two distinct pre-existing function objects. -/
def st1n : PState :=
  { st0 with
      setImmediateG := some (FnVal.fnNative 41)
      clearImmediateG := some (FnVal.fnNative 42) }

/-- The result of loading the bootstrapper in `st1n`. -/
def r1n : BootResult := bootStep st1n

lemma loadBootstrapper_ok_iff (st : PState) (r : BootResult) :
    loadBootstrapper st = Except.ok r ↔
      st.jestDomPresent = true ∧ r = bootStep st := by
  unfold loadBootstrapper
  cases st.jestDomPresent <;> simp [eq_comm]

lemma registerJestDomMatchers_id (st : PState)
    (h : st.matchersRegistered = true) : registerJestDomMatchers st = st := by
  cases st
  simp_all [registerJestDomMatchers]

lemma bootStep_state_frame (st : PState) :
    (bootStep st).state.timers = st.timers ∧
    (bootStep st).state.executed = st.executed ∧
    (bootStep st).state.nextTimerId = st.nextTimerId ∧
    (bootStep st).state.otherGlobals = st.otherGlobals ∧
    (bootStep st).state.jestDomPresent = st.jestDomPresent ∧
    (bootStep st).state.matchersRegistered = true := by
  unfold bootStep
  cases hc : st.clearImmediateG <;> cases hs : st.setImmediateG <;>
    simp [registerJestDomMatchers, installClearShim, installSetShim, hc, hs]

lemma bootStep_clear_of_none (st : PState) (h : st.clearImmediateG = none) :
    (bootStep st).state.clearImmediateG
      = some (FnVal.clearImmediateShim st.nextFnId) := by
  unfold bootStep
  cases hs : st.setImmediateG <;>
    simp [registerJestDomMatchers, installClearShim, installSetShim, h, hs]

lemma bootStep_clear_of_some (st : PState) (v : FnVal)
    (h : st.clearImmediateG = some v) :
    (bootStep st).state.clearImmediateG = some v := by
  unfold bootStep
  cases hs : st.setImmediateG <;>
    simp [registerJestDomMatchers, installClearShim, installSetShim, h, hs]

lemma bootStep_set_of_none (st : PState) (h : st.setImmediateG = none) :
    ∃ i, (bootStep st).state.setImmediateG
      = some (FnVal.setImmediateShim i) := by
  unfold bootStep
  cases hc : st.clearImmediateG <;>
    simp [registerJestDomMatchers, installClearShim, installSetShim, h, hc]

lemma bootStep_set_of_some (st : PState) (v : FnVal)
    (h : st.setImmediateG = some v) :
    (bootStep st).state.setImmediateG = some v := by
  unfold bootStep
  cases hc : st.clearImmediateG <;>
    simp [registerJestDomMatchers, installClearShim, installSetShim, h, hc]

lemma bootStep_ops (st : PState) :
    (bootStep st).ops
      = [BootOp.importJestDom,
         BootOp.ensureClearImmediate st.clearImmediateG.isNone,
         BootOp.ensureSetImmediate st.setImmediateG.isNone] := by
  unfold bootStep
  cases hc : st.clearImmediateG <;> cases hs : st.setImmediateG <;>
    simp [registerJestDomMatchers, installClearShim, installSetShim, hc, hs]

lemma bootStep_writes (st : PState) :
    (bootStep st).writes
      = [GlobalTarget.matcherRegistry]
        ++ (if st.clearImmediateG.isNone then [GlobalTarget.clearImmediateB]
            else [])
        ++ (if st.setImmediateG.isNone then [GlobalTarget.setImmediateB]
            else []) := by
  unfold bootStep
  cases hc : st.clearImmediateG <;> cases hs : st.setImmediateG <;>
    simp [registerJestDomMatchers, installClearShim, installSetShim, hc, hs]

lemma callGlobalSetImmediate_of_shim (st : PState) (i f : Nat)
    (extra : List Nat) (h : st.setImmediateG = some (FnVal.setImmediateShim i)) :
    callGlobalSetImmediate f extra st = some (setTimeout f [] 0 st) := by
  unfold callGlobalSetImmediate
  rw [h]

lemma callGlobalClearImmediate_of_shim (st : PState) (i h' : Nat)
    (h : st.clearImmediateG = some (FnVal.clearImmediateShim i)) :
    callGlobalClearImmediate h' st = some (clearTimeout h' st) := by
  unfold callGlobalClearImmediate
  rw [h]

lemma bootStep_clear_isSome (st : PState) :
    ∃ v, (bootStep st).state.clearImmediateG = some v := by
  cases hc : st.clearImmediateG with
  | none => exact ⟨_, bootStep_clear_of_none st hc⟩
  | some v => exact ⟨v, bootStep_clear_of_some st v hc⟩

lemma bootStep_set_isSome (st : PState) :
    ∃ v, (bootStep st).state.setImmediateG = some v := by
  cases hs : st.setImmediateG with
  | none =>
      obtain ⟨i, hi⟩ := bootStep_set_of_none st hs
      exact ⟨_, hi⟩
  | some v => exact ⟨v, bootStep_set_of_some st v hs⟩

lemma bootStep_noop (st : PState) (vc vs : FnVal)
    (hc : st.clearImmediateG = some vc) (hs : st.setImmediateG = some vs)
    (hm : st.matchersRegistered = true) :
    bootStep st =
      { state := st
        ops := [BootOp.importJestDom, BootOp.ensureClearImmediate false,
                BootOp.ensureSetImmediate false]
        writes := [GlobalTarget.matcherRegistry] } := by
  unfold bootStep
  simp [registerJestDomMatchers_id st hm, hc, hs]

/-- C1: for every process state in which the global `setImmediate` is
undefined, after the bootstrapper module loads, calling `setImmediate(f)`
for any callback `f` forwards `f` to the platform's `setTimeout` with a
delay of exactly zero and returns the very handle that primitive
returns. -/
theorem setImmediate_shim_forwards_to_setTimeout_zero
    (st : PState) (r : BootResult) (f : Nat)
    (hset : st.setImmediateG = none)
    (hload : loadBootstrapper st = Except.ok r) :
    callGlobalSetImmediate f [] r.state = some (setTimeout f [] 0 r.state) ∧
    (setTimeout f [] 0 r.state).1 = r.state.nextTimerId ∧
    (setTimeout f [] 0 r.state).2.timers
      = r.state.timers ++ [⟨r.state.nextTimerId, 0, f, []⟩] := by
  obtain ⟨-, hr⟩ := (loadBootstrapper_ok_iff st r).1 hload
  subst hr
  obtain ⟨i, hi⟩ := bootStep_set_of_none st hset
  exact ⟨callGlobalSetImmediate_of_shim _ i f [] hi, rfl, rfl⟩

theorem setImmediate_shim_forwards_to_setTimeout_zero_witness :
    callGlobalSetImmediate 5 [] r0.state = some (setTimeout 5 [] 0 r0.state) ∧
    (setTimeout 5 [] 0 r0.state).1 = r0.state.nextTimerId ∧
    (setTimeout 5 [] 0 r0.state).2.timers
      = r0.state.timers ++ [⟨r0.state.nextTimerId, 0, 5, []⟩] :=
  setImmediate_shim_forwards_to_setTimeout_zero st0 r0 5 rfl rfl

/-- C2: for every process state in which the global `clearImmediate` is
undefined, after the bootstrapper module loads, calling
`clearImmediate(h)` for any handle `h` produces exactly the same
observable effect as calling the platform's `clearTimeout` with `h`. -/
theorem clearImmediate_shim_same_as_clearTimeout
    (st : PState) (r : BootResult) (h : Nat)
    (hclear : st.clearImmediateG = none)
    (hload : loadBootstrapper st = Except.ok r) :
    callGlobalClearImmediate h r.state = some (clearTimeout h r.state) := by
  obtain ⟨-, hr⟩ := (loadBootstrapper_ok_iff st r).1 hload
  subst hr
  exact callGlobalClearImmediate_of_shim _ st.nextFnId h
    (bootStep_clear_of_none st hclear)

theorem clearImmediate_shim_same_as_clearTimeout_witness :
    callGlobalClearImmediate 3 r0.state = some (clearTimeout 3 r0.state) :=
  clearImmediate_shim_same_as_clearTimeout st0 r0 3 rfl rfl

/-- C3: for every process state in which `setImmediate` (respectively
`clearImmediate`) is already defined on the global scope before the
bootstrapper loads, loading the bootstrapper leaves that global binding
referentially identical to its pre-load value. -/
theorem load_preserves_existing_bindings
    (st : PState) (r : BootResult) (v w : FnVal)
    (hload : loadBootstrapper st = Except.ok r) :
    (st.setImmediateG = some v → r.state.setImmediateG = some v) ∧
    (st.clearImmediateG = some w → r.state.clearImmediateG = some w) := by
  obtain ⟨-, hr⟩ := (loadBootstrapper_ok_iff st r).1 hload
  subst hr
  exact ⟨bootStep_set_of_some st v, bootStep_clear_of_some st w⟩

theorem load_preserves_existing_bindings_witness :
    (st1n.setImmediateG = some (FnVal.fnNative 41) →
      r1n.state.setImmediateG = some (FnVal.fnNative 41)) ∧
    (st1n.clearImmediateG = some (FnVal.fnNative 42) →
      r1n.state.clearImmediateG = some (FnVal.fnNative 42)) :=
  load_preserves_existing_bindings st1n r1n
    (FnVal.fnNative 41) (FnVal.fnNative 42) rfl

/-- C4: in a process state where neither `setImmediate` nor
`clearImmediate` is defined, after the bootstrapper loads both globals
are functions (the two shims), and for any callback `f` not already
pending or executed, cancelling the handle returned by `setImmediate(f)`
before the zero-delay timer fires prevents `f` from ever executing. -/
theorem schedule_then_cancel_never_runs
    (st : PState) (r : BootResult) (f : Nat)
    (hset : st.setImmediateG = none) (hclear : st.clearImmediateG = none)
    (hload : loadBootstrapper st = Except.ok r)
    (hfreshT : ∀ t ∈ st.timers, t.cb ≠ f)
    (hfreshE : ∀ p ∈ st.executed, p.1 ≠ f) :
    (∃ i, r.state.setImmediateG = some (FnVal.setImmediateShim i)) ∧
    (∃ j, r.state.clearImmediateG = some (FnVal.clearImmediateShim j)) ∧
    ∃ pr st2,
      callGlobalSetImmediate f [] r.state = some pr ∧
      callGlobalClearImmediate pr.1 pr.2 = some st2 ∧
      ∀ p ∈ (fireAllTimers st2).executed, p.1 ≠ f := by
  obtain ⟨-, hr⟩ := (loadBootstrapper_ok_iff st r).1 hload
  subst hr
  obtain ⟨i, hi⟩ := bootStep_set_of_none st hset
  have hcB := bootStep_clear_of_none st hclear
  obtain ⟨hT, hE, hN, -, -, -⟩ := bootStep_state_frame st
  refine ⟨⟨i, hi⟩, ⟨st.nextFnId, hcB⟩,
          setTimeout f [] 0 (bootStep st).state, _,
          callGlobalSetImmediate_of_shim _ i f [] hi,
          callGlobalClearImmediate_of_shim _ st.nextFnId _ hcB, ?_⟩
  intro p hp
  simp only [fireAllTimers, clearTimeout, setTimeout, List.mem_append] at hp
  rcases hp with hp | hp
  · exact hfreshE p (hE ▸ hp)
  · obtain ⟨t, ht, rfl⟩ := List.mem_map.1 hp
    obtain ⟨htmem, hpred⟩ := List.mem_filter.1 ht
    simp only [ne_eq, decide_not, Bool.not_eq_eq_eq_not, Bool.not_true,
      decide_eq_false_iff_not] at hpred
    rcases List.mem_append.1 htmem with htmem | htmem
    · exact hfreshT t (hT ▸ htmem)
    · simp only [List.mem_singleton] at htmem
      subst htmem
      simp at hpred

theorem schedule_then_cancel_never_runs_witness :
    (∃ i, r0.state.setImmediateG = some (FnVal.setImmediateShim i)) ∧
    (∃ j, r0.state.clearImmediateG = some (FnVal.clearImmediateShim j)) ∧
    ∃ pr st2,
      callGlobalSetImmediate 5 [] r0.state = some pr ∧
      callGlobalClearImmediate pr.1 pr.2 = some st2 ∧
      ∀ p ∈ (fireAllTimers st2).executed, p.1 ≠ 5 :=
  schedule_then_cancel_never_runs st0 r0 5 rfl rfl rfl
    (by decide) (by decide)

/-- C5: loading the bootstrapper is idempotent: a second load in the
resulting state succeeds, leaves the state unchanged, installs nothing
(both presence checks are re-evaluated and find the globals defined),
and writes only the matcher registry again. -/
theorem load_idempotent
    (st : PState) (r : BootResult)
    (hload : loadBootstrapper st = Except.ok r) :
    ∃ r2, loadBootstrapper r.state = Except.ok r2 ∧
      r2.state = r.state ∧
      r2.ops = [BootOp.importJestDom, BootOp.ensureClearImmediate false,
                BootOp.ensureSetImmediate false] ∧
      r2.writes = [GlobalTarget.matcherRegistry] := by
  obtain ⟨hj, hr⟩ := (loadBootstrapper_ok_iff st r).1 hload
  subst hr
  obtain ⟨vc, hvc⟩ := bootStep_clear_isSome st
  obtain ⟨vs, hvs⟩ := bootStep_set_isSome st
  obtain ⟨-, -, -, -, hjd, hm⟩ := bootStep_state_frame st
  have hnoop := bootStep_noop (bootStep st).state vc vs hvc hvs hm
  refine ⟨bootStep (bootStep st).state,
          (loadBootstrapper_ok_iff _ _).2 ⟨by rw [hjd]; exact hj, rfl⟩,
          ?_, ?_, ?_⟩
  · rw [hnoop]
  · rw [hnoop]
  · rw [hnoop]

theorem load_idempotent_witness :
    ∃ r2, loadBootstrapper r0.state = Except.ok r2 ∧
      r2.state = r0.state ∧
      r2.ops = [BootOp.importJestDom, BootOp.ensureClearImmediate false,
                BootOp.ensureSetImmediate false] ∧
      r2.writes = [GlobalTarget.matcherRegistry] :=
  load_idempotent st0 r0 rfl

/-- C6: for every process state in which `setImmediate` and
`clearImmediate` are undefined and pending timer handles are below the
allocator, after the bootstrapper loads, calling `setImmediate(f)`
executes nothing during the call (the invocation log is unchanged),
schedules `f` under zero-delay timeout semantics, and returns a handle
usable with `clearImmediate`: cancelling it restores the timer queue. -/
theorem setImmediate_shim_schedules_asynchronously
    (st : PState) (r : BootResult) (f : Nat)
    (hset : st.setImmediateG = none) (hclear : st.clearImmediateG = none)
    (hfresh : HandlesFresh st)
    (hload : loadBootstrapper st = Except.ok r) :
    ∃ pr, callGlobalSetImmediate f [] r.state = some pr ∧
      pr.2.executed = r.state.executed ∧
      (∃ t ∈ pr.2.timers, t.cb = f ∧ t.delay = 0) ∧
      ∃ st2, callGlobalClearImmediate pr.1 pr.2 = some st2 ∧
        st2.timers = r.state.timers := by
  obtain ⟨-, hr⟩ := (loadBootstrapper_ok_iff st r).1 hload
  subst hr
  obtain ⟨i, hi⟩ := bootStep_set_of_none st hset
  have hcB := bootStep_clear_of_none st hclear
  obtain ⟨hT, hE, hN, -, -, -⟩ := bootStep_state_frame st
  refine ⟨setTimeout f [] 0 (bootStep st).state,
          callGlobalSetImmediate_of_shim _ i f [] hi, rfl,
          ⟨⟨(bootStep st).state.nextTimerId, 0, f, []⟩,
            by simp [setTimeout], rfl, rfl⟩,
          _, callGlobalClearImmediate_of_shim _ st.nextFnId _ hcB, ?_⟩
  simp [clearTimeout, setTimeout, List.filter_append]
  intro a ha
  rw [hT] at ha
  rw [hN]
  exact Nat.ne_of_lt (hfresh a ha)

theorem setImmediate_shim_schedules_asynchronously_witness :
    ∃ pr, callGlobalSetImmediate 5 [] r0.state = some pr ∧
      pr.2.executed = r0.state.executed ∧
      (∃ t ∈ pr.2.timers, t.cb = 5 ∧ t.delay = 0) ∧
      ∃ st2, callGlobalClearImmediate pr.1 pr.2 = some st2 ∧
        st2.timers = r0.state.timers :=
  setImmediate_shim_schedules_asynchronously st0 r0 5 rfl rfl
    (by decide) rfl

/-- C7: a successful load performs exactly three operations in fixed
order — the jest-dom import, the `clearImmediate` presence check with
its conditional installation, then the `setImmediate` presence check
with its conditional installation — and nothing else. -/
theorem load_runs_three_fixed_ops
    (st : PState) (r : BootResult)
    (hload : loadBootstrapper st = Except.ok r) :
    r.ops = [BootOp.importJestDom,
             BootOp.ensureClearImmediate st.clearImmediateG.isNone,
             BootOp.ensureSetImmediate st.setImmediateG.isNone] ∧
    r.ops.length = 3 := by
  obtain ⟨-, hr⟩ := (loadBootstrapper_ok_iff st r).1 hload
  subst hr
  rw [bootStep_ops st]
  exact ⟨rfl, rfl⟩

theorem load_runs_three_fixed_ops_witness :
    r0.ops = [BootOp.importJestDom,
              BootOp.ensureClearImmediate st0.clearImmediateG.isNone,
              BootOp.ensureSetImmediate st0.setImmediateG.isNone] ∧
    r0.ops.length = 3 :=
  load_runs_three_fixed_ops st0 r0 rfl

/-- C8: the only failure mode of the bootstrapper is the jest-dom import
failing: the load succeeds exactly when the package is present, and the
load fails exactly when the package is absent, in which case the result
is the uncaught fatal import error and nothing after the import runs. -/
theorem load_only_failure_is_import_failure (st : PState) :
    (loadBootstrapper st).isOk = st.jestDomPresent ∧
    (loadBootstrapper st = Except.error LoadError.importFailed ↔
      st.jestDomPresent = false) := by
  unfold loadBootstrapper
  cases st.jestDomPresent <;> simp [Except.isOk, Except.toBool]

/-- C9: a successful load leaves the timer queue, the invocation log,
the timer-handle allocator, every other global binding and the jest-dom
availability flag unchanged; its write log names only the matcher
registry and the two immediate bindings, each at most once. -/
theorem load_frame_effects
    (st : PState) (r : BootResult)
    (hload : loadBootstrapper st = Except.ok r) :
    r.state.timers = st.timers ∧
    r.state.executed = st.executed ∧
    r.state.nextTimerId = st.nextTimerId ∧
    r.state.otherGlobals = st.otherGlobals ∧
    r.state.jestDomPresent = st.jestDomPresent ∧
    r.writes.Nodup ∧ r.writes.length ≤ 3 := by
  obtain ⟨-, hr⟩ := (loadBootstrapper_ok_iff st r).1 hload
  subst hr
  obtain ⟨hT, hE, hN, hO, hJ, -⟩ := bootStep_state_frame st
  refine ⟨hT, hE, hN, hO, hJ, ?_, ?_⟩ <;>
    rw [bootStep_writes st] <;>
    cases hc : st.clearImmediateG <;> cases hs : st.setImmediateG <;>
    simp [hc, hs]

theorem load_frame_effects_witness :
    r0.state.timers = st0.timers ∧
    r0.state.executed = st0.executed ∧
    r0.state.nextTimerId = st0.nextTimerId ∧
    r0.state.otherGlobals = st0.otherGlobals ∧
    r0.state.jestDomPresent = st0.jestDomPresent ∧
    r0.writes.Nodup ∧ r0.writes.length ≤ 3 :=
  load_frame_effects st0 r0 rfl

/-- C10: the installed `setImmediate` shim discards every argument after
the callback: for any extra arguments, the scheduled callback is invoked
with the empty argument list when the timer fires — the call adds
exactly the invocation of `f` with no arguments to what firing would
have produced anyway. -/
theorem setImmediate_shim_discards_extra_args
    (st : PState) (r : BootResult) (f : Nat) (extra : List Nat)
    (hset : st.setImmediateG = none)
    (hload : loadBootstrapper st = Except.ok r) :
    ∃ pr, callGlobalSetImmediate f extra r.state = some pr ∧
      (fireAllTimers pr.2).executed
        = (fireAllTimers r.state).executed ++ [(f, [])] := by
  obtain ⟨-, hr⟩ := (loadBootstrapper_ok_iff st r).1 hload
  subst hr
  obtain ⟨i, hi⟩ := bootStep_set_of_none st hset
  refine ⟨_, callGlobalSetImmediate_of_shim _ i f extra hi, ?_⟩
  simp [fireAllTimers, setTimeout]

theorem setImmediate_shim_discards_extra_args_witness :
    ∃ pr, callGlobalSetImmediate 5 [7, 8] r0.state = some pr ∧
      (fireAllTimers pr.2).executed
        = (fireAllTimers r0.state).executed ++ [(5, [])] :=
  setImmediate_shim_discards_extra_args st0 r0 5 [7, 8] rfl rfl

end SetupTests
